import Mathlib

/-!
Shallow embedding of the card-swipe ledger of nnev/kasse (src/main.go,
src/unnamed/part_000) and proofs about its swipe-handling behaviour.

The database (sqlite) is modelled as in-memory lists mirroring the three
tables of schema.sql; the registration rendezvous (the unbuffered channel
`k.card` together with the goroutine blocked in `AddCardEvent`) is modelled
as a boolean flag `listenerWaiting` plus an explicit delivered-UID output.
Machine integers are modelled as `Int`/`Nat` (amounts are small, far from
any overflow the Go `int64` could see); the `float32` field `Result.Account`
is modelled as `ℚ`, exact on every value appearing in this development.
-/

/-- Card UIDs are opaque byte strings (`[]byte` in Go). -/
abbrev UID := List Nat

/-- Row of the `users` table (src/main.go:54-58). -/
structure User where
  id : Nat
  name : String
  password : String
deriving Repr, DecidableEq

/-- Row of the `cards` table (src/main.go:61-65). -/
structure Card where
  id : UID
  user : Nat
  description : String
deriving Repr, DecidableEq

/-- Row of the `transactions` table (src/main.go:69-76); `card` is NULLABLE
(manual top-ups carry no card). -/
structure Transaction where
  user : Nat
  card : Option UID
  time : Nat
  amount : Int
  kind : String
deriving Repr, DecidableEq

/-- The three persistent tables of schema.sql. -/
structure DB where
  users : List User
  cards : List Card
  transactions : List Transaction
deriving Repr, DecidableEq

/-- In-memory application state (src/main.go:45-51): the database handle plus
the registration rendezvous. `listenerWaiting` is true exactly when a
goroutine inside `AddCardEvent` is blocked reading from the channel `k.card`,
so that the send in `HandleCard` (src/main.go:187) would succeed. -/
structure Kasse where
  db : DB
  listenerWaiting : Bool
deriving Repr, DecidableEq

/-- ResultCode (src/main.go:80-95). -/
inductive ResultCode where
  | paymentMade
  | lowBalance
  | accountEmpty
  | unknownCard
deriving Repr, DecidableEq

/-- Result (src/main.go:99-104). `account` embeds the Go field
`Account float32`, always assigned as `float32(balance) / 100`. -/
structure Result where
  code : ResultCode
  uid : UID
  user : String
  account : ℚ
deriving Repr, DecidableEq

/-- The sentinel error values of src/main.go:159-174. -/
inductive Err where
  | accountEmpty
  | cardNotFound
  | userExists
  | cardExists
  | wrongAuth
deriving Repr, DecidableEq

/-- Everything a call to `HandleCard` produces: the new state, the returned
`*Result` and `error`, and the UID handed to a waiting registration listener
over the channel (if any). -/
structure SwipeOutcome where
  kasse : Kasse
  res : Option Result
  err : Option Err
  delivered : Option UID
deriving Repr, DecidableEq

/-- Embeds the query of src/main.go:206: `SELECT users.user_id, name,
password FROM cards LEFT JOIN users ON cards.user_id = users.user_id WHERE
card_id = $1`, scanned into a `User`. The scan errors out both when no card
row matches and when the left join yields NULL user columns, and every scan
error takes the card-not-found branch, so the lookup succeeds exactly when
the card exists and its owner exists. -/
def findCardUser (db : DB) (uid : UID) : Option User :=
  match db.cards.find? (fun c => c.id == uid) with
  | none => none
  | some c => db.users.find? (fun u => u.id == c.user)

/-- Embeds `SELECT SUM(amount) FROM transactions WHERE user_id = $1`
(src/main.go:221 and src/main.go:458): SQL `SUM` over an empty set is NULL,
modelled as `none`. -/
def sqlSumAmounts (ts : List Transaction) (userId : Nat) : Option Int :=
  let amounts := (ts.filter fun t => t.user == userId).map fun t => t.amount
  if amounts.isEmpty then none else some amounts.sum

/-- Pre-charge balance as `HandleCard` computes it (src/main.go:219-227): a
NULL sum leaves the Go variable `balance` at its zero value 0, which the
`getD 0` mirrors. -/
def balanceOf (db : DB) (userId : Nat) : Int :=
  (sqlSumAmounts db.transactions userId).getD 0

/-- The transaction row inserted by an accepted swipe (src/main.go:241):
amount -100, kind "Kartenswipe", card set to the swiped UID. -/
def swipeDebit (userId : Nat) (uid : UID) (now : Nat) : Transaction :=
  { user := userId, card := some uid, time := now, amount := -100,
    kind := "Kartenswipe" }

/-- Embeds `(*Kasse).HandleCard` (src/main.go:182-257). The `now` argument
stands for `time.Now()`. If a registration listener is blocked on the card
channel, the select at src/main.go:186-196 delivers the UID to it and
returns a fixed placeholder result; otherwise the charge path runs: card
lookup, balance computation, threshold checks at 100 and 600, and the debit
insert plus commit on the accepted branches. -/
def HandleCard (k : Kasse) (uid : UID) (now : Nat) : SwipeOutcome :=
  if k.listenerWaiting then
    { kasse := { k with listenerWaiting := false }
      res := some { code := .unknownCard, uid := uid, user := "", account := 0 }
      err := none
      delivered := some uid }
  else
    match findCardUser k.db uid with
    | none =>
        { kasse := k
          res := some { code := .unknownCard, uid := uid, user := "", account := 0 }
          err := some .cardNotFound
          delivered := none }
    | some user =>
        let balance := balanceOf k.db user.id
        if balance < 100 then
          { kasse := k
            res := some { code := .accountEmpty, uid := uid, user := user.name,
                          account := (balance : ℚ) / 100 }
            err := none
            delivered := none }
        else
          let db2 : DB := { k.db with
            transactions := k.db.transactions ++ [swipeDebit user.id uid now] }
          if balance < 600 then
            { kasse := { k with db := db2 }
              res := some { code := .lowBalance, uid := uid, user := user.name,
                            account := (balance : ℚ) / 100 }
              err := none
              delivered := none }
          else
            { kasse := { k with db := db2 }
              res := some { code := .paymentMade, uid := uid, user := user.name,
                            account := (balance : ℚ) / 100 }
              err := none
              delivered := none }

/-- Embeds `(*Kasse).GetBalance` (src/main.go:456-463): the balance is read
back from the transactions table on every call; a NULL sum is returned as
the `NullInt64` zero value 0 (the code returns `b.Int64` without checking
`b.Valid`). -/
def GetBalance (k : Kasse) (u : User) : Int :=
  (sqlSumAmounts k.db.transactions u.id).getD 0

/-- Embeds `(*Kasse).AddCard` (src/main.go:310-343): an existing row with
the same card id aborts with `ErrCardExists` before any insert, rolling the
transaction back; otherwise the card row is inserted and a card struct with
id and owner (description left at its zero value, as in the Go code) is
returned. -/
def AddCard (k : Kasse) (uid : UID) (owner : User) (descr : String) :
    Kasse × Option Card × Option Err :=
  match k.db.cards.find? (fun c => c.id == uid) with
  | some _ => (k, none, some .cardExists)
  | none =>
      ({ k with db := { k.db with cards := k.db.cards ++
          [{ id := uid, user := owner.id, description := descr }] } },
       some { id := uid, user := owner.id, description := "" },
       none)

/-- A manual top-up: transaction rows with positive amount and no card are
appended directly to the transactions table by an external collaborator, as
the test fixtures do (src/main_test.go, `insertData`, kind "Aufladung"). -/
def topUp (k : Kasse) (userId : Nat) (amount : Int) (now : Nat) : Kasse :=
  { k with db := { k.db with transactions := k.db.transactions ++
      [{ user := userId, card := none, time := now, amount := amount,
         kind := "Aufladung" }] } }

/-- One operation of a swipe/top-up history. -/
inductive Op where
  | swipe (uid : UID) (now : Nat)
  | doTopUp (userId : Nat) (amount : Int) (now : Nat)

/-- Applies one operation to the state. -/
def applyOp (k : Kasse) : Op → Kasse
  | .swipe uid now => (HandleCard k uid now).kasse
  | .doTopUp userId amount now => topUp k userId amount now

/-- Applies a whole history of operations. -/
def applyOps (k : Kasse) (ops : List Op) : Kasse :=
  ops.foldl applyOp k

/-- The sum of all transaction amounts recorded for a user, as the spec
words it. -/
def userTxSum (ts : List Transaction) (userId : Nat) : Int :=
  ((ts.filter fun t => t.user == userId).map fun t => t.amount).sum

/-- Concrete user for evaluating the model, mirroring the fixture of
`TestHandleCard` (src/main_test.go). -/
def demoUser : User := { id := 1, name := "Merovius", password := "pw" }

/-- Concrete card with UID byte 0xaa bound to `demoUser`. -/
def demoCard : Card := { id := [170], user := 1, description := "" }

/-- Concrete state with one user and one bound card, seeded with top-up
rows of the given amounts, and no registration listener waiting. -/
def mkKasse (amounts : List Int) : Kasse :=
  { db := { users := [demoUser], cards := [demoCard],
            transactions := amounts.map fun a =>
              { user := 1, card := none, time := 0, amount := a,
                kind := "Aufladung" } },
    listenerWaiting := false }

/-- The registration waiting window in seconds: `AddCardEvent` waits with
`context.WithTimeout(req.Context(), 1*time.Minute)`
(src/unnamed/part_000:269). -/
def registrationTimeout : Nat := 60

/-- One registration listener session (`AddCardEvent`,
src/unnamed/part_000:240-289): the instant the listener started waiting on
the card channel, and the instant and UID of the next swipe handed to the
channel, if any arrives at all. -/
structure RegSession where
  start : Nat
  swipe : Option (Nat × UID)

/-- What a registration listener session ends with: either it claimed a
swiped UID, or the one-minute context expired first and the handler
answered 408 Request Timeout without a card. -/
inductive RegOutcome where
  | claimed (uid : UID)
  | timedOut
deriving Repr, DecidableEq

/-- Embeds the select of src/unnamed/part_000:271-276 together with the
deferred unlock of the single-slot registration mutex
(src/unnamed/part_000:256-257): the UID is claimed when the swipe beats the
deadline, otherwise the wait times out; the boolean records that the
exclusive slot is released on return, which `defer` guarantees on both
paths. -/
def runRegWait (s : RegSession) : RegOutcome × Bool :=
  match s.swipe with
  | some (t, u) =>
      if t < s.start + registrationTimeout then (.claimed u, true)
      else (.timedOut, true)
  | none => (.timedOut, true)

/-- Reading a SQL SUM with NULL mapped to the NullInt64 zero value agrees
with the plain sum over the user rows. -/
theorem sqlSum_getD (ts : List Transaction) (userId : Nat) :
    (sqlSumAmounts ts userId).getD 0 = userTxSum ts userId := by
  cases hl : (ts.filter fun t => t.user == userId).map fun t => t.amount with
  | nil => simp [sqlSumAmounts, userTxSum, hl]
  | cons a as => simp [sqlSumAmounts, userTxSum, hl]

/-- Shape lemma: any call whose Result code is PaymentMade or LowBalance
went through the charge path with a bound card, a pre-charge balance of at
least 100, and appended exactly the one debit row. -/
theorem charge_shape (k : Kasse) (uid : UID) (now : Nat) (r : Result)
    (hres : (HandleCard k uid now).res = some r)
    (hc : r.code = ResultCode.paymentMade ∨ r.code = ResultCode.lowBalance) :
    ∃ u, findCardUser k.db uid = some u ∧ 100 ≤ balanceOf k.db u.id ∧
      (HandleCard k uid now).kasse.db.transactions =
        k.db.transactions ++ [swipeDebit u.id uid now] := by
  by_cases hW : k.listenerWaiting
  · simp [HandleCard, hW] at hres
    rcases hc with h | h <;> (subst hres; simp at h)
  · rcases hF : findCardUser k.db uid with _ | u
    · simp [HandleCard, hW, hF] at hres
      rcases hc with h | h <;> (subst hres; simp at h)
    · by_cases h1 : balanceOf k.db u.id < 100
      · simp [HandleCard, hW, hF, h1] at hres
        rcases hc with h | h <;> (subst hres; simp at h)
      · refine ⟨u, rfl, by omega, ?_⟩
        by_cases h6 : balanceOf k.db u.id < 600 <;>
          simp [HandleCard, hW, hF, h1, h6]

/-- With no registration listener waiting, a swipe is never handed to the
card channel: every branch of the charge path leaves `delivered` empty. -/
theorem handleCard_no_listener_delivered (k : Kasse) (uid : UID) (now : Nat)
    (hW : k.listenerWaiting = false) :
    (HandleCard k uid now).delivered = none := by
  rcases hF : findCardUser k.db uid with _ | u
  · simp [HandleCard, hW, hF]
  · by_cases h1 : balanceOf k.db u.id < 100
    · simp [HandleCard, hW, hF, h1]
    · by_cases h6 : balanceOf k.db u.id < 600 <;>
        simp [HandleCard, hW, hF, h1, h6]

/-- Claim C1: for a swipe of a card bound to a user (charge path, no
registration listener waiting), `HandleCard` classifies by the pre-charge
balance b, the sum of the transaction amounts of the resolved user: b < 100
gives code AccountEmpty with no transaction written; 100 <= b < 600 appends
the -100 debit and gives code LowBalance; 600 <= b appends the -100 debit
and gives code PaymentMade. -/
theorem handleCard_threshold_classification
    (k : Kasse) (uid : UID) (now : Nat) (u : User)
    (hL : k.listenerWaiting = false)
    (hF : findCardUser k.db uid = some u) :
    (balanceOf k.db u.id < 100 →
      (HandleCard k uid now).res =
        some { code := ResultCode.accountEmpty, uid := uid, user := u.name,
               account := (balanceOf k.db u.id : ℚ) / 100 } ∧
      (HandleCard k uid now).kasse.db.transactions = k.db.transactions) ∧
    (100 ≤ balanceOf k.db u.id → balanceOf k.db u.id < 600 →
      (HandleCard k uid now).res =
        some { code := ResultCode.lowBalance, uid := uid, user := u.name,
               account := (balanceOf k.db u.id : ℚ) / 100 } ∧
      (HandleCard k uid now).kasse.db.transactions =
        k.db.transactions ++ [swipeDebit u.id uid now]) ∧
    (600 ≤ balanceOf k.db u.id →
      (HandleCard k uid now).res =
        some { code := ResultCode.paymentMade, uid := uid, user := u.name,
               account := (balanceOf k.db u.id : ℚ) / 100 } ∧
      (HandleCard k uid now).kasse.db.transactions =
        k.db.transactions ++ [swipeDebit u.id uid now]) := by
  refine ⟨fun h1 => ?_, fun h100 h600 => ?_, fun h600 => ?_⟩
  · simp [HandleCard, hL, hF, h1]
  · have h1 : ¬ balanceOf k.db u.id < 100 := by omega
    simp [HandleCard, hL, hF, h1, h600]
  · have h1 : ¬ balanceOf k.db u.id < 100 := by omega
    have h6 : ¬ balanceOf k.db u.id < 600 := by omega
    simp [HandleCard, hL, hF, h1, h6]

/-- Claim C4: a call whose outcome is CardNotFound or insufficient funds
(code AccountEmpty) writes nothing: the users, cards and transactions
tables after the call are exactly the tables before it. -/
theorem rejected_swipe_writes_nothing (k : Kasse) (uid : UID) (now : Nat)
    (h : (HandleCard k uid now).err = some Err.cardNotFound ∨
         ∃ r, (HandleCard k uid now).res = some r ∧
           r.code = ResultCode.accountEmpty) :
    (HandleCard k uid now).kasse.db = k.db := by
  by_cases hW : k.listenerWaiting
  · simp [HandleCard, hW]
  · rcases hF : findCardUser k.db uid with _ | u
    · simp [HandleCard, hW, hF]
    · by_cases h1 : balanceOf k.db u.id < 100
      · simp [HandleCard, hW, hF, h1]
      · exfalso
        by_cases h6 : balanceOf k.db u.id < 600 <;>
          simp [HandleCard, hW, hF, h1, h6] at h

/-- Claim C2: after any sequence of swipe and top-up operations, the
balance `GetBalance` computes equals the sum of all committed transaction
amounts of that user. The balance is not stored anywhere: `Kasse` carries
no balance field, and `GetBalance` re-reads the transactions table on every
call. -/
theorem balance_equals_transaction_sum (k : Kasse) (ops : List Op) (u : User) :
    GetBalance (applyOps k ops) u =
      userTxSum (applyOps k ops).db.transactions u.id := by
  simp only [GetBalance]
  exact sqlSum_getD _ _

/-- Claim C7: while a registration listener waits on the single-slot
rendezvous, a swipe of any identifier is delivered to that listener and the
charge path is skipped: the database is untouched, no error (in particular
no CardNotFound) is raised, and the returned result is the same whatever
the card table holds, so no lookup has taken place. -/
theorem registration_listener_claims_swipe (db db2 : DB) (uid : UID) (now : Nat) :
    (HandleCard { db := db, listenerWaiting := true } uid now).delivered = some uid ∧
    (HandleCard { db := db, listenerWaiting := true } uid now).kasse.db = db ∧
    (HandleCard { db := db, listenerWaiting := true } uid now).err = none ∧
    (HandleCard { db := db, listenerWaiting := true } uid now).res =
      (HandleCard { db := db2, listenerWaiting := true } uid now).res :=
  ⟨rfl, rfl, rfl, rfl⟩

/-- Claim C10: when a registration listener claims the swipe, the caller of
`HandleCard` receives a non-nil Result with code UnknownCard, empty user
name and account 0, together with a nil error, whatever the database and
UID are. -/
theorem claimed_swipe_placeholder_result (db : DB) (uid : UID) (now : Nat) :
    (HandleCard { db := db, listenerWaiting := true } uid now).res =
      some { code := ResultCode.unknownCard, uid := uid, user := "", account := 0 } ∧
    (HandleCard { db := db, listenerWaiting := true } uid now).err = none :=
  ⟨rfl, rfl⟩

/-- Claim C3: a single `HandleCard` call returning code PaymentMade or
LowBalance appends exactly one transaction row, the -100 "Kartenswipe"
debit; and a second successful call right after appends its own second
debit, so the operation is not idempotent. -/
theorem accepted_swipe_appends_one_debit
    (k : Kasse) (uid : UID) (now1 now2 : Nat) (r1 : Result)
    (h1 : (HandleCard k uid now1).res = some r1)
    (hc1 : r1.code = ResultCode.paymentMade ∨ r1.code = ResultCode.lowBalance) :
    (∃ u : User, findCardUser k.db uid = some u ∧
        (HandleCard k uid now1).kasse.db.transactions =
          k.db.transactions ++ [swipeDebit u.id uid now1]) ∧
    (∀ r2, (HandleCard (HandleCard k uid now1).kasse uid now2).res = some r2 →
        r2.code = ResultCode.paymentMade ∨ r2.code = ResultCode.lowBalance →
        ∃ u2 : User, (HandleCard (HandleCard k uid now1).kasse uid now2).kasse.db.transactions =
          (HandleCard k uid now1).kasse.db.transactions ++ [swipeDebit u2.id uid now2]) := by
  constructor
  · obtain ⟨u, hF, _, htx⟩ := charge_shape k uid now1 r1 h1 hc1
    exact ⟨u, hF, htx⟩
  · intro r2 h2 hc2
    obtain ⟨u2, _, _, htx2⟩ := charge_shape _ uid now2 r2 h2 hc2
    exact ⟨u2, htx2⟩

/-- Claim C5, evaluation at the failing input: a swipe of the bound card
0xaa while its owner has no transactions (pre-charge balance 0 < 100)
returns the populated AccountEmpty result but a nil error, although
HandleCard's own doc comment promises that the account is charged if and
only if the returned error is nil, and `TestHandleCard` expects
ErrAccountEmpty here. -/
theorem empty_account_code_evaluation :
    (HandleCard (mkKasse []) [170] 0).err = none ∧
    (HandleCard (mkKasse []) [170] 0).res =
      some { code := ResultCode.accountEmpty, uid := [170], user := "Merovius",
             account := 0 } ∧
    (HandleCard (mkKasse []) [170] 0).kasse.db.transactions = [] := by
  refine ⟨by decide, ?_, by decide⟩
  simp [HandleCard, mkKasse, findCardUser, balanceOf, sqlSumAmounts, demoUser, demoCard]

/-- Claim C6 counterexample: a successful PaymentMade charge at pre-charge
balance 600 returns a Result whose account field is 6 — the pre-charge
balance divided by 100 — and not the post-charge balance 500 in minor units
the claim asserts. -/
theorem account_post_charge_counterexample :
    (HandleCard (mkKasse [600]) [170] 1).res =
      some { code := ResultCode.paymentMade, uid := [170], user := "Merovius",
             account := 6 } ∧
    ((6 : ℚ) ≠ 600 - 100) := by
  constructor
  · simp [HandleCard, mkKasse, findCardUser, balanceOf, sqlSumAmounts, demoUser, demoCard]
    norm_num
  · norm_num

/-- Claim C6 amended: for every successful charge, the Result carries the
pre-charge balance divided by 100 (major currency units, as the float32
Account field is filled with float32(balance)/100 before the debit is
inserted), not the post-charge balance in minor units. -/
theorem account_reports_pre_charge_over_100
    (k : Kasse) (uid : UID) (now : Nat) (u : User) (r : Result)
    (hL : k.listenerWaiting = false)
    (hF : findCardUser k.db uid = some u)
    (hres : (HandleCard k uid now).res = some r)
    (hc : r.code = ResultCode.paymentMade ∨ r.code = ResultCode.lowBalance) :
    r.account = (balanceOf k.db u.id : ℚ) / 100 := by
  by_cases h1 : balanceOf k.db u.id < 100
  · simp [HandleCard, hL, hF, h1] at hres
    rcases hc with h | h <;> (subst hres; simp at h)
  · by_cases h6 : balanceOf k.db u.id < 600 <;>
      (simp [HandleCard, hL, hF, h1, h6] at hres; subst hres; rfl)

/-- Claim C8: the registration waiting window is bounded by the one-minute
timeout `registrationTimeout`: when no swipe reaches the listener before
the deadline, the wait ends in a timeout without a claimed card, the
exclusive slot is released, and a swipe arriving once no listener waits is
not delivered to anyone — it falls back to the charge path. -/
theorem registration_wait_times_out (s : RegSession)
    (h : ∀ t u, s.swipe = some (t, u) → s.start + registrationTimeout ≤ t) :
    (runRegWait s).1 = RegOutcome.timedOut ∧ (runRegWait s).2 = true ∧
    ∀ (db : DB) (uid : UID) (now : Nat),
      (HandleCard { db := db, listenerWaiting := false } uid now).delivered = none := by
  refine ⟨?_, ?_, ?_⟩
  · rcases hs : s.swipe with _ | ⟨t, u⟩
    · simp [runRegWait, hs]
    · have hn : ¬ t < s.start + registrationTimeout := by
        have := h t u hs; omega
      simp [runRegWait, hs, hn]
  · rcases hs : s.swipe with _ | ⟨t, u⟩
    · simp [runRegWait, hs]
    · by_cases hlt : t < s.start + registrationTimeout <;>
        simp [runRegWait, hs, hlt]
  · intro db uid now
    exact handleCard_no_listener_delivered _ uid now rfl

/-- Claim C9: adding a card whose identifier is already bound in the cards
table fails with ErrCardExists for any owner and description, and the whole
state is returned unchanged: no card row is inserted or modified. -/
theorem addCard_duplicate_rejected (k : Kasse) (uid : UID) (owner : User)
    (descr : String) (c : Card) (hc : c ∈ k.db.cards) (hid : c.id = uid) :
    AddCard k uid owner descr = (k, none, some Err.cardExists) := by
  have hs : (k.db.cards.find? fun c2 => c2.id == uid).isSome := by
    rw [List.find?_isSome]
    exact ⟨c, hc, by simp [hid]⟩
  obtain ⟨c2, hc2⟩ := Option.isSome_iff_exists.mp hs
  simp [AddCard, hc2]

/-- Witness for C1 at a concrete state with pre-charge balance 800. -/
theorem handleCard_threshold_classification_witness :
    (mkKasse [1000, -100, -100]).listenerWaiting = false ∧
    findCardUser (mkKasse [1000, -100, -100]).db [170] = some demoUser ∧
    ((balanceOf (mkKasse [1000, -100, -100]).db demoUser.id < 100 →
      (HandleCard (mkKasse [1000, -100, -100]) [170] 5).res =
        some { code := ResultCode.accountEmpty, uid := [170], user := demoUser.name,
               account := (balanceOf (mkKasse [1000, -100, -100]).db demoUser.id : ℚ) / 100 } ∧
      (HandleCard (mkKasse [1000, -100, -100]) [170] 5).kasse.db.transactions =
        (mkKasse [1000, -100, -100]).db.transactions) ∧
    (100 ≤ balanceOf (mkKasse [1000, -100, -100]).db demoUser.id →
      balanceOf (mkKasse [1000, -100, -100]).db demoUser.id < 600 →
      (HandleCard (mkKasse [1000, -100, -100]) [170] 5).res =
        some { code := ResultCode.lowBalance, uid := [170], user := demoUser.name,
               account := (balanceOf (mkKasse [1000, -100, -100]).db demoUser.id : ℚ) / 100 } ∧
      (HandleCard (mkKasse [1000, -100, -100]) [170] 5).kasse.db.transactions =
        (mkKasse [1000, -100, -100]).db.transactions ++ [swipeDebit demoUser.id [170] 5]) ∧
    (600 ≤ balanceOf (mkKasse [1000, -100, -100]).db demoUser.id →
      (HandleCard (mkKasse [1000, -100, -100]) [170] 5).res =
        some { code := ResultCode.paymentMade, uid := [170], user := demoUser.name,
               account := (balanceOf (mkKasse [1000, -100, -100]).db demoUser.id : ℚ) / 100 } ∧
      (HandleCard (mkKasse [1000, -100, -100]) [170] 5).kasse.db.transactions =
        (mkKasse [1000, -100, -100]).db.transactions ++ [swipeDebit demoUser.id [170] 5])) :=
  ⟨rfl, rfl,
    handleCard_threshold_classification (mkKasse [1000, -100, -100]) [170] 5 demoUser rfl rfl⟩

/-- Witness for C3 at a concrete state with pre-charge balance 1000: the
first swipe succeeds with PaymentMade and both conjuncts apply. -/
theorem accepted_swipe_appends_one_debit_witness :
    ((HandleCard (mkKasse [1000]) [170] 5).res =
      some { code := ResultCode.paymentMade, uid := [170], user := "Merovius",
             account := 10 }) ∧
    (({ code := ResultCode.paymentMade, uid := [170], user := "Merovius",
        account := (10 : ℚ) } : Result).code = ResultCode.paymentMade ∨
     ({ code := ResultCode.paymentMade, uid := [170], user := "Merovius",
        account := (10 : ℚ) } : Result).code = ResultCode.lowBalance) ∧
    ((∃ u : User, findCardUser (mkKasse [1000]).db [170] = some u ∧
        (HandleCard (mkKasse [1000]) [170] 5).kasse.db.transactions =
          (mkKasse [1000]).db.transactions ++ [swipeDebit u.id [170] 5]) ∧
     (∀ r2, (HandleCard (HandleCard (mkKasse [1000]) [170] 5).kasse [170] 6).res = some r2 →
        r2.code = ResultCode.paymentMade ∨ r2.code = ResultCode.lowBalance →
        ∃ u2 : User,
          (HandleCard (HandleCard (mkKasse [1000]) [170] 5).kasse [170] 6).kasse.db.transactions =
            (HandleCard (mkKasse [1000]) [170] 5).kasse.db.transactions ++
              [swipeDebit u2.id [170] 6])) := by
  have hres : (HandleCard (mkKasse [1000]) [170] 5).res =
      some { code := ResultCode.paymentMade, uid := [170], user := "Merovius",
             account := 10 } := by
    simp [HandleCard, mkKasse, findCardUser, balanceOf, sqlSumAmounts, demoUser, demoCard]
    norm_num
  exact ⟨hres, Or.inl rfl,
    accepted_swipe_appends_one_debit (mkKasse [1000]) [170] 5 6 _ hres (Or.inl rfl)⟩

/-- Witness for C4 at a concrete unbound identifier: the swipe fails with
CardNotFound and the database is unchanged. -/
theorem rejected_swipe_writes_nothing_witness :
    ((HandleCard (mkKasse [600]) [9] 0).err = some Err.cardNotFound ∨
     ∃ r, (HandleCard (mkKasse [600]) [9] 0).res = some r ∧
       r.code = ResultCode.accountEmpty) ∧
    (HandleCard (mkKasse [600]) [9] 0).kasse.db = (mkKasse [600]).db :=
  ⟨Or.inl (by decide),
    rejected_swipe_writes_nothing (mkKasse [600]) [9] 0 (Or.inl (by decide))⟩

/-- Witness for the amended C6 at pre-charge balance 600: the account field
equals 600/100. -/
theorem account_reports_pre_charge_over_100_witness :
    (mkKasse [600]).listenerWaiting = false ∧
    findCardUser (mkKasse [600]).db [170] = some demoUser ∧
    (HandleCard (mkKasse [600]) [170] 1).res =
      some { code := ResultCode.paymentMade, uid := [170], user := "Merovius",
             account := 6 } ∧
    ({ code := ResultCode.paymentMade, uid := [170], user := "Merovius",
       account := (6 : ℚ) } : Result).account =
      (balanceOf (mkKasse [600]).db demoUser.id : ℚ) / 100 := by
  have hres : (HandleCard (mkKasse [600]) [170] 1).res =
      some { code := ResultCode.paymentMade, uid := [170], user := "Merovius",
             account := 6 } := by
    simp [HandleCard, mkKasse, findCardUser, balanceOf, sqlSumAmounts, demoUser, demoCard]
    norm_num
  exact ⟨rfl, rfl, hres,
    account_reports_pre_charge_over_100 (mkKasse [600]) [170] 1 demoUser _ rfl rfl hres
      (Or.inl rfl)⟩

/-- Witness for C8 at a concrete session in which no swipe ever arrives. -/
theorem registration_wait_times_out_witness :
    (∀ t u, (RegSession.mk 0 none).swipe = some (t, u) →
        (RegSession.mk 0 none).start + registrationTimeout ≤ t) ∧
    ((runRegWait (RegSession.mk 0 none)).1 = RegOutcome.timedOut ∧
     (runRegWait (RegSession.mk 0 none)).2 = true ∧
     ∀ (db : DB) (uid : UID) (now : Nat),
       (HandleCard { db := db, listenerWaiting := false } uid now).delivered = none) :=
  ⟨(fun _ _ h => nomatch h),
    registration_wait_times_out (RegSession.mk 0 none) (fun _ _ h => nomatch h)⟩

/-- Witness for C9: registering the already-bound card 0xaa again is
rejected and the state is unchanged. -/
theorem addCard_duplicate_rejected_witness :
    demoCard ∈ (mkKasse []).db.cards ∧ demoCard.id = [170] ∧
    AddCard (mkKasse []) [170] demoUser "desc" = (mkKasse [], none, some Err.cardExists) :=
  ⟨by decide, rfl,
    addCard_duplicate_rejected (mkKasse []) [170] demoUser "desc" demoCard (by decide) rfl⟩
